import Mathlib

/-!
Verification development for the FleetWise fleet-management repository.

The stateful core of the repository is the live-tracking logic of the
FleetMap React component (source file part_002): handleVehicleSelect,
handleStartTracking (whose setInterval callback is the tick of the
tracking simulation), handleStopTracking, and the derived progress/ETA
display expressions.  Those are embedded here as pure functions over an
explicit component-state record.  JavaScript timers are modelled
explicitly: every interval that has been created by setInterval and not
yet cleared by clearInterval is a live timer; the React ref
trackingIntervalRef holds at most one timer id, but overwriting the ref
does not clear the previous interval, so several timers can be live at
once.  Machine-number arithmetic in the sources stays within small exact
values, so numbers are embedded as Rat (and Int where the code compares
an index against length - 1).

The route-calculation backend (calculateRoutes, toll lookup, cost
estimation) and the wire serializer of RoutePlan are not part of the
source tree, only their frontend callers are; they are modelled from the
specification where a claim needs them, and each such definition carries
a doc comment saying so.
-/

namespace FleetWise

/-- Route profile of a calculated route (spec section 3; the frontend
keys of routeColors in part_001/part_002: fastest, economy, scenic). -/
inductive RouteType where
  | fastest
  | economy
  | scenic
deriving DecidableEq

/-- Fuel type of a vehicle (the four options of the vehicle form in
part_001: petrol, diesel, electric, hybrid). -/
inductive FuelType where
  | petrol
  | diesel
  | electric
  | hybrid
deriving DecidableEq

/-- A latitude/longitude pair as the frontend passes it around in
objects of the shape (lat, lng). -/
structure Loc where
  lat : Rat
  lng : Rat
deriving DecidableEq

/-- A toll charge as it appears in the wire representation of a route:
name, location object and amount (spec section 6). -/
structure TollCharge where
  name : String
  location : Loc
  amount : Rat
deriving DecidableEq

/-- The serialized RoutePlan as the frontend receives it from the
routes/calculate endpoint (spec section 6): route_type, distance (km),
duration (min), fuel_consumption (l), estimated_cost, tolls and
coordinates, where each coordinate pair is ordered (longitude,
latitude). -/
structure WireRoute where
  route_type : RouteType
  distance : Rat
  duration : Rat
  fuel_consumption : Rat
  estimated_cost : Rat
  tolls : List TollCharge
  coordinates : List (Rat × Rat)
deriving DecidableEq

/-- One live setInterval timer created by handleStartTracking in
part_002 (lines 132-159).  The callback closure captures the chosen
route, the selected vehicle id and the mutable counter named progress
declared just before the setInterval call (line 131). -/
structure TimerClosure where
  vehicleId : Nat
  route : WireRoute
  progress : Nat
deriving DecidableEq

/-- The state of the FleetMap component (part_002 lines 62-69) together
with an explicit account of the live timers and of the externally
observable effect calls.  persistCalls records every location write
attempted against the backend (the axios.put of lines 154-158), in
order; loggedErrors counts the log entries produced by the rejection
handler of that write. -/
structure FleetState where
  selectedVehicleId : Option Nat
  vehicleLocations : List (Nat × Loc)
  activeRoute : Option WireRoute
  isTracking : Bool
  routeProgress : Nat
  center : Loc
  trackingRef : Option Nat
  liveTimers : List (Nat × TimerClosure)
  nextTimerId : Nat
  persistCalls : List (Nat × Loc)
  loggedErrors : Nat
deriving DecidableEq

/-- Conversion of a wire coordinate pair to a location object exactly as
the tick callback does it in part_002 line 143: the object has lat equal
to coord(1) and lng equal to coord(0). -/
def trackerEmitLoc (p : Rat × Rat) : Loc :=
  { lat := p.2, lng := p.1 }

/-- Update of the closure-captured progress counter of one live timer
(the mutable variable written by progress += 1 in part_002 line 133). -/
def setTimerProgress (l : List (Nat × TimerClosure)) (id : Nat) (p : Nat) :
    List (Nat × TimerClosure) :=
  l.map (fun q => if q.1 = id then (q.1, { q.2 with progress := p }) else q)

/-- Effect of clearInterval(trackingIntervalRef.current) followed by
trackingIntervalRef.current = null, guarded by a null check, as it
appears in part_002 lines 91-94, 135-136 and 166-169.  Only the timer
the ref currently points to is cleared; any other live timer keeps
running. -/
def clearRefTimer (s : FleetState) : FleetState :=
  match s.trackingRef with
  | none => s
  | some id =>
      { s with liveTimers := s.liveTimers.filter (fun q => q.1 != id),
               trackingRef := none }

/-- Translation of handleVehicleSelect (part_002 lines 85-99): select
the vehicle, drop tracking state (isTracking false, activeRoute null,
routeProgress 0), clear the ref'd interval if any, and recenter on the
vehicle when its location is known. -/
def handleVehicleSelect (s : FleetState) (v : Nat) : FleetState :=
  let s1 := { s with selectedVehicleId := some v,
                     isTracking := false,
                     activeRoute := none,
                     routeProgress := 0 }
  let s2 := clearRefTimer s1
  match List.lookup v s2.vehicleLocations with
  | some l => { s2 with center := l }
  | none => s2

/-- Translation of the state-changing core of handleStartTracking
(part_002 lines 101-163), taking the route returned by the backend
(response.data(0), line 124) as a parameter since the network call is an
external collaborator.  If no vehicle is selected the handler returns
early (lines 102-105); if the selected vehicle has no stored location
the destination computation throws and the catch block leaves the state
unchanged (lines 109-111 and 160-162).  Otherwise the route becomes
active, tracking starts at progress 0 and a fresh interval is created
and stored in the ref (lines 125-132).  Note that no existing interval
is cleared anywhere in this handler. -/
def handleStartTracking (s : FleetState) (r : WireRoute) : FleetState :=
  match s.selectedVehicleId with
  | none => s
  | some v =>
      match List.lookup v s.vehicleLocations with
      | none => s
      | some _ =>
          { s with activeRoute := some r,
                   isTracking := true,
                   routeProgress := 0,
                   liveTimers := s.liveTimers ++ [(s.nextTimerId, ⟨v, r, 0⟩)],
                   trackingRef := some s.nextTimerId,
                   nextTimerId := s.nextTimerId + 1 }

/-- Translation of the rejection handler attached to the best-effort
location write, the catch of part_002 line 158.  Its body is empty, so
it emits no log entry and changes nothing. -/
def persistFailureHandler (s : FleetState) : FleetState :=
  s

/-- One firing of the interval with identifier id, that is one execution
of the setInterval callback of part_002 lines 132-159; ok tells whether
the best-effort location write succeeds.  A cleared interval never
fires.  The callback first increments its captured progress counter
(line 133); if the new value exceeds coordinates.length - 1 it clears
the ref'd interval, nulls the ref and deactivates tracking without
emitting anything (lines 134-140); otherwise it reads the coordinate at
the new index, builds the location object with lat from index 1 and lng
from index 0 of the pair (lines 142-143), stores it for the vehicle,
recenters the map, publishes the new progress (lines 145-151) and
attempts the backend location write whose failure falls into the empty
catch handler (lines 154-158). -/
def fireTimer (id : Nat) (ok : Bool) (s : FleetState) : FleetState :=
  match List.lookup id s.liveTimers with
  | none => s
  | some t =>
      let p := t.progress + 1
      if ((p : Int) > (t.route.coordinates.length : Int) - 1) then
        let s1 := clearRefTimer s
        { s1 with isTracking := false,
                  liveTimers := setTimerProgress s1.liveTimers id p }
      else
        let newLoc := trackerEmitLoc (t.route.coordinates.getD p (0, 0))
        let s2 := { s with
          vehicleLocations := (t.vehicleId, newLoc) :: s.vehicleLocations,
          center := newLoc,
          routeProgress := p,
          liveTimers := setTimerProgress s.liveTimers id p,
          persistCalls := s.persistCalls ++ [(t.vehicleId, newLoc)] }
        if ok then s2 else persistFailureHandler s2

/-- Translation of handleStopTracking (part_002 lines 165-172): clear
the ref'd interval if any and set isTracking to false. -/
def handleStopTracking (s : FleetState) : FleetState :=
  { clearRefTimer s with isTracking := false }

/-- The scheduled tick of the current session: the firing of the
interval held by trackingIntervalRef, with a successful location write.
When the ref is null no tick is scheduled and nothing happens. -/
def tickRef (s : FleetState) : FleetState :=
  match s.trackingRef with
  | none => s
  | some id => fireTimer id true s

/-- Iterated scheduled ticks: n firings of the current session's
interval at its one-second cadence. -/
def ticksN (s : FleetState) : Nat → FleetState
  | 0 => s
  | n + 1 => tickRef (ticksN s n)

/-- An arbitrary interleaving of timer firings: each list element gives
the interval id that fires and the outcome of its location write. -/
def fireSeq (s : FleetState) : List (Nat × Bool) → FleetState
  | [] => s
  | e :: rest => fireSeq (fireTimer e.1 e.2 s) rest

/-- JavaScript Math.round: round to the nearest integer, halves toward
positive infinity. -/
def jsRound (q : Rat) : Int :=
  Int.floor (q + 1 / 2)

/-- The completion fraction routeProgress / (coordinates.length - 1)
that the progress badge of part_002 line 255 scales to a percentage;
zero when no route is active. -/
def completionFraction (s : FleetState) : Rat :=
  match s.activeRoute with
  | some r => (s.routeProgress : Rat) / ((r.coordinates.length : Rat) - 1)
  | none => 0

/-- The percentage shown by the progress badge, part_002 line 255:
Math.round((routeProgress / (coordinates.length - 1)) * 100). -/
def displayedCompletionPct (s : FleetState) : Option Int :=
  s.activeRoute.map
    (fun r => jsRound (((s.routeProgress : Rat) / ((r.coordinates.length : Rat) - 1)) * 100))

/-- The ETA shown by the tracking panel, part_002 line 261:
Math.round(duration * (1 - routeProgress / coordinates.length)).  Note
the divisor is the full path length, not length - 1. -/
def displayedEta (s : FleetState) : Option Int :=
  s.activeRoute.map
    (fun r => jsRound (r.duration * (1 - (s.routeProgress : Rat) / (r.coordinates.length : Rat))))

/-- The ETA formula as the specification words it: duration_min times
one minus the completion fraction position_index / (path length - 1).
Stated verbatim from the spec to compare against displayedEta. -/
def specEta (r : WireRoute) (i : Nat) : Rat :=
  r.duration * (1 - (i : Rat) / ((r.coordinates.length : Rat) - 1))

/-- The location emitted by the tick at index i of a route: the wire
coordinate pair at i converted by the lat/lng swap of part_002
line 143. -/
def emitLoc (r : WireRoute) (i : Nat) : Loc :=
  trackerEmitLoc (r.coordinates.getD i (0, 0))

/-- The location writes attempted during the first k emitting ticks of a
session of vehicle v over route r, in order. -/
def emittedCalls (v : Nat) (r : WireRoute) (k : Nat) : List (Nat × Loc) :=
  (List.range k).map (fun i => (v, emitLoc r (i + 1)))

/-- A fresh FleetMap component state (the initial useState values of
part_002 lines 62-69, default center Delhi) in which the
location-initialisation effect of lines 72-81 has installed a location
for one vehicle v. -/
def mkReady (v : Nat) (l0 : Loc) : FleetState :=
  { selectedVehicleId := some v,
    vehicleLocations := [(v, l0)],
    activeRoute := none,
    isTracking := false,
    routeProgress := 0,
    center := { lat := 286139 / 10000, lng := 772090 / 10000 },
    trackingRef := none,
    liveTimers := [],
    nextTimerId := 0,
    persistCalls := [],
    loggedErrors := 0 }

/-! ### Route generation, modelled from the specification

The backend that serves the routes/calculate endpoint is not part of
the source tree; only its frontend callers are.  The definitions below
therefore follow the specification (sections 3, 4.1-4.3 and 6) rather
than source code. -/

/-- Modelled from the spec: the RoutePlan record of spec section 3 -
profile, ordered path of coordinates, distance, duration, fuel
consumption, tolls and estimated cost (the backend that builds it is
not in the source tree). -/
structure RoutePlan where
  route_type : RouteType
  path : List Loc
  distance_km : Rat
  duration_min : Rat
  fuel_consumption_l : Rat
  tolls : List TollCharge
  estimated_cost : Rat
deriving DecidableEq

/-- Modelled from the spec: the error raised by route calculation
(spec section 7); only the validation error is relevant to the
claims. -/
inductive RouteError where
  | invalidCoordinate
deriving DecidableEq

/-- Modelled from the spec: a coordinate is valid when latitude lies in
the closed interval from -90 to 90 and longitude from -180 to 180 (spec
section 3). -/
def validLoc (c : Loc) : Bool :=
  decide (-90 ≤ c.lat) && decide (c.lat ≤ 90) &&
  decide (-180 ≤ c.lng) && decide (c.lng ≤ 180)

/-- Modelled from the spec: the small epsilon within which start and end
count as identical (spec section 4.1). -/
def closeEps : Rat :=
  1 / 10000

/-- Modelled from the spec: start equals end within the small epsilon,
componentwise. -/
def nearIdentical (a b : Loc) : Bool :=
  decide (|a.lat - b.lat| < closeEps) && decide (|a.lng - b.lng| < closeEps)

/-- Modelled from the spec: profile-specific average speed in km/h with
fastest above economy at or above scenic (spec section 4.1). -/
def avgSpeed : RouteType → Rat
  | .fastest => 60
  | .economy => 50
  | .scenic => 40

/-- Modelled from the spec: magnitude in degrees of the geometric
detour of a profile; the scenic profile takes the deliberate detour
(spec section 4.1). -/
def detourMag : RouteType → Rat
  | .fastest => 0
  | .economy => 1 / 50
  | .scenic => 1 / 20

/-- Modelled from the spec: a deterministic seed derived from the
request parameters (start, end, route_type), replacing the ambient
randomness the spec rules out (spec sections 4.1 and 9). -/
def routeSeed (a b : Loc) (rt : RouteType) : Rat :=
  a.lat * 7 + a.lng * 13 + b.lat * 17 + b.lng * 19 + avgSpeed rt

/-- Modelled from the spec: the waypoint offset of a profile, the
detour magnitude modulated by the fractional part of the seed so that
it depends deterministically on (start, end, route_type). -/
def seededOffset (a b : Loc) (rt : RouteType) : Rat :=
  detourMag rt * (1 + (routeSeed a b rt - Int.floor (routeSeed a b rt)))

/-- Modelled from the spec: linear interpolation between two
coordinates at parameter t, used to place waypoints on the direct
line. -/
def interpLoc (a b : Loc) (t : Rat) : Loc :=
  { lat := a.lat + (b.lat - a.lat) * t, lng := a.lng + (b.lng - a.lng) * t }

/-- Modelled from the spec: synthesized polyline for one profile,
strategy (b) of spec section 4.1 - intermediate waypoints offset from
the direct line between start and end, first point the start and last
point the end. -/
def synthPath (a b : Loc) (rt : RouteType) : List Loc :=
  let off := seededOffset a b rt
  let mk := fun (t : Rat) (w : Rat) =>
    let p := interpLoc a b t
    { lat := p.lat + off * w, lng := p.lng - off * w : Loc }
  [a, mk (1 / 4) 1, mk (1 / 2) 2, mk (3 / 4) 1, b]

/-- Modelled from the spec: length in km of one path segment.  The
great-circle metric of spec section 4.1 involves transcendental
functions with no computable rational form, and no claim depends on the
metric's numeric value, so it is abstracted by a computable rational
surrogate: the sum of the absolute coordinate differences scaled by 111
km per degree. -/
def segLen (a b : Loc) : Rat :=
  (|b.lat - a.lat| + |b.lng - a.lng|) * 111

/-- Modelled from the spec: total path length - consecutive segment
lengths, summed (spec section 4.1). -/
def pathLength : List Loc → Rat
  | a :: b :: rest => segLen a b + pathLength (b :: rest)
  | _ => 0

/-- Modelled from the spec: fixed per-fuel-type consumption rate table
in liters (or energy-equivalent liters) per km, never negative (spec
section 4.3). -/
def fuelRate : FuelType → Rat
  | .petrol => 8 / 100
  | .diesel => 7 / 100
  | .electric => 5 / 100
  | .hybrid => 6 / 100

/-- Modelled from the spec: fuel unit price table used by the cost
formula of spec section 3. -/
def fuelUnitPrice : FuelType → Rat
  | .petrol => 105
  | .diesel => 95
  | .electric => 10
  | .hybrid => 100

/-- Modelled from the spec: round to 2 decimal places, half up (spec
sections 3 and 4.3). -/
def round2 (q : Rat) : Rat :=
  (Int.floor (q * 100 + 1 / 2) : Rat) / 100

/-- Modelled from the spec: the pure cost estimator of spec section
4.3, returning fuel consumption and the rounded monetary cost including
tolls. -/
def estimateCost (distance : Rat) (f : FuelType) (tolls : List TollCharge) : Rat × Rat :=
  let fuel := distance * fuelRate f
  (fuel, round2 (fuel * fuelUnitPrice f + (tolls.map TollCharge.amount).sum))

/-- Modelled from the spec: assembly of one RoutePlan for a profile on
the finished path, delegating tolls to the external toll lookup
collaborator and fuel/cost to the cost estimator (spec section 4.1). -/
def mkRoutePlan (tollLookup : List Loc → List TollCharge) (a b : Loc)
    (f : FuelType) (rt : RouteType) : RoutePlan :=
  let path := synthPath a b rt
  let dist := pathLength path
  let tolls := tollLookup path
  let fc := estimateCost dist f tolls
  { route_type := rt,
    path := path,
    distance_km := dist,
    duration_min := dist / avgSpeed rt * 60,
    fuel_consumption_l := fc.1,
    tolls := tolls,
    estimated_cost := fc.2 }

/-- Modelled from the spec: calculateRoutes (spec sections 4.1 and 6).
Missing from the source tree; modelled from the contract: validate both
coordinates and their distinctness, then produce one RoutePlan per
profile - fastest, economy, scenic - on synthesized paths, with tolls
from the injected external toll lookup collaborator. -/
def calculateRoutes (tollLookup : List Loc → List TollCharge) (a b : Loc)
    (f : FuelType) : Except RouteError (List RoutePlan) :=
  if validLoc a && validLoc b && !(nearIdentical a b) then
    .ok [mkRoutePlan tollLookup a b f .fastest,
         mkRoutePlan tollLookup a b f .economy,
         mkRoutePlan tollLookup a b f .scenic]
  else
    .error .invalidCoordinate

/-- Modelled from the spec: the wire serialization of one path
coordinate (spec section 6) - pairs are ordered (longitude,
latitude). -/
def serializeCoordPair (c : Loc) : Rat × Rat :=
  (c.lng, c.lat)

/-- Modelled from the spec: the wire representation of a RoutePlan
(spec section 6).  The backend serializer is not in the source tree;
this follows the field list of the spec, with coordinates the path
serialized pairwise as (longitude, latitude). -/
def serializeRoutePlan (p : RoutePlan) : WireRoute :=
  { route_type := p.route_type,
    distance := p.distance_km,
    duration := p.duration_min,
    fuel_consumption := p.fuel_consumption_l,
    estimated_cost := p.estimated_cost,
    tolls := p.tolls,
    coordinates := p.path.map serializeCoordPair }

/-- The map renderer's conversion of one wire coordinate pair for
display: part_002 line 297 and part_001 lines 497 and 916 map each pair
to the array (coord(1), coord(0)), that is (lat, lng). -/
def rendererPosition (p : Rat × Rat) : Rat × Rat :=
  (p.2, p.1)

/-! ### Concrete fixtures for witnesses and counterexamples -/

/-- A concrete vehicle location near the default map center. -/
def locEx : Loc :=
  { lat := 28, lng := 77 }

/-- A concrete wire route with a two-point path. -/
def r2ex : WireRoute :=
  { route_type := .fastest,
    distance := 5,
    duration := 12,
    fuel_consumption := 2 / 5,
    estimated_cost := 42,
    tolls := [],
    coordinates := [(77, 28), (7710 / 100, 2810 / 100)] }

/-- A concrete wire route with a three-point path and duration 30. -/
def r3ex : WireRoute :=
  { route_type := .fastest,
    distance := 10,
    duration := 30,
    fuel_consumption := 4 / 5,
    estimated_cost := 84,
    tolls := [],
    coordinates := [(77, 28), (7710 / 100, 2810 / 100), (7720 / 100, 2820 / 100)] }

/-! ### Helper lemmas about the tracking state machine -/

theorem lookup_filter_bne {β : Type} (a : Nat) (l : List (Nat × β)) :
    List.lookup a (l.filter (fun q => q.1 != a)) = none := by
  induction l with
  | nil => rfl
  | cons h t ih =>
      obtain ⟨k, b⟩ := h
      rw [List.filter_cons]
      by_cases hq : k = a
      · simp [hq, ih]
      · have hcond : (((k, b) : Nat × β).1 != a) = true := by
          simpa [bne_iff_ne] using hq
        rw [if_pos hcond]
        have hne : (a == k) = false := by
          simpa [beq_eq_false_iff_ne] using fun he => hq he.symm
        simp [List.lookup, hne, ih]

/-- The outcome of the best-effort location write has no influence at
all on the resulting component state: the rejection handler of part_002
line 158 is empty. -/
theorem fireTimer_ok_irrelevant (id : Nat) (o1 o2 : Bool) (s : FleetState) :
    fireTimer id o1 s = fireTimer id o2 s := by
  unfold fireTimer persistFailureHandler
  cases List.lookup id s.liveTimers with
  | none => rfl
  | some t =>
      dsimp only []
      split
      · rfl
      · cases o1 <;> cases o2 <;> rfl

/-- No firing of any timer ever produces a log entry: the only error
handler on the tick path is the empty catch of part_002 line 158. -/
theorem fireTimer_loggedErrors (id : Nat) (ok : Bool) (s : FleetState) :
    (fireTimer id ok s).loggedErrors = s.loggedErrors := by
  unfold fireTimer persistFailureHandler clearRefTimer
  cases List.lookup id s.liveTimers with
  | none => rfl
  | some t =>
      dsimp only []
      split
      · cases s.trackingRef <;> rfl
      · cases ok <;> rfl

/-- A state whose ref holds no timer has no scheduled tick. -/
theorem tickRef_of_none (s : FleetState) (h : s.trackingRef = none) :
    tickRef s = s := by
  simp [tickRef, h]

theorem ticksN_fixed (s : FleetState) (h : s.trackingRef = none) :
    ∀ n, ticksN s n = s := by
  intro n
  induction n with
  | zero => rfl
  | succ n ih => rw [ticksN, ih, tickRef_of_none s h]

theorem ticksN_add (s : FleetState) (m n : Nat) :
    ticksN s (m + n) = ticksN (ticksN s m) n := by
  induction n with
  | zero => rfl
  | succ n ih => rw [← Nat.add_assoc, ticksN, ih, ticksN]

/-- A cleared (or never created) timer id never fires. -/
theorem fireTimer_of_not_live (id : Nat) (ok : Bool) (s : FleetState)
    (h : List.lookup id s.liveTimers = none) :
    fireTimer id ok s = s := by
  unfold fireTimer
  rw [h]

/-- With no live timer at all, any interleaving of firings is inert. -/
theorem fireSeq_of_no_timers (s : FleetState) (h : s.liveTimers = []) :
    ∀ l, fireSeq s l = s := by
  intro l
  induction l with
  | nil => rfl
  | cons e rest ih =>
      rw [fireSeq, fireTimer_of_not_live e.1 e.2 s (by rw [h]; rfl), ih]

/-- Shape of the component state during a tracking session started by
handleStartTracking from a state with no live timer, after k scheduled
ticks, for any k up to path length minus one: the session's interval is
the only live timer and carries progress k, tracking is on, the
published progress is k, and exactly the first k emitted locations have
been sent to the backend. -/
theorem run_state (s : FleetState) (v : Nat) (l0 : Loc) (r : WireRoute)
    (hsel : s.selectedVehicleId = some v)
    (hloc : List.lookup v s.vehicleLocations = some l0)
    (hclean : s.liveTimers = [])
    (hL : 2 ≤ r.coordinates.length) :
    ∀ k, k ≤ r.coordinates.length - 1 →
      (ticksN (handleStartTracking s r) k).trackingRef = some s.nextTimerId ∧
      (ticksN (handleStartTracking s r) k).liveTimers = [(s.nextTimerId, ⟨v, r, k⟩)] ∧
      (ticksN (handleStartTracking s r) k).isTracking = true ∧
      (ticksN (handleStartTracking s r) k).routeProgress = k ∧
      (ticksN (handleStartTracking s r) k).activeRoute = some r ∧
      (ticksN (handleStartTracking s r) k).persistCalls
        = s.persistCalls ++ emittedCalls v r k ∧
      (ticksN (handleStartTracking s r) k).loggedErrors = s.loggedErrors := by
  intro k
  induction k with
  | zero =>
      intro _
      simp [ticksN, handleStartTracking, hsel, hloc, hclean, emittedCalls]
  | succ k ih =>
      intro hk1
      obtain ⟨h1, h2, h3, h4, h5, h6, h7⟩ := ih (by omega)
      have hguard : ¬ (((k + 1 : Nat) : Int) > (r.coordinates.length : Int) - 1) := by
        omega
      rw [ticksN]
      simp only [tickRef, h1, fireTimer, h2, List.lookup, beq_self_eq_true]
      rw [if_neg hguard]
      simp [setTimerProgress, h1, h3, h4, h5, h6, h7, emittedCalls, List.range_succ, emitLoc]

/-- Shape of the component state after the full path length of
scheduled ticks: the one extra firing past the end of the path has
cleared the interval, nulled the ref and switched tracking off without
emitting any coordinate or attempting any further location write; the
published progress stays at path length minus one. -/
theorem run_done (s : FleetState) (v : Nat) (l0 : Loc) (r : WireRoute)
    (hsel : s.selectedVehicleId = some v)
    (hloc : List.lookup v s.vehicleLocations = some l0)
    (hclean : s.liveTimers = [])
    (hL : 2 ≤ r.coordinates.length) :
    (ticksN (handleStartTracking s r) r.coordinates.length).trackingRef = none ∧
    (ticksN (handleStartTracking s r) r.coordinates.length).liveTimers = [] ∧
    (ticksN (handleStartTracking s r) r.coordinates.length).isTracking = false ∧
    (ticksN (handleStartTracking s r) r.coordinates.length).routeProgress
      = r.coordinates.length - 1 ∧
    (ticksN (handleStartTracking s r) r.coordinates.length).activeRoute = some r ∧
    (ticksN (handleStartTracking s r) r.coordinates.length).persistCalls
      = s.persistCalls ++ emittedCalls v r (r.coordinates.length - 1) ∧
    (ticksN (handleStartTracking s r) r.coordinates.length).loggedErrors = s.loggedErrors := by
  obtain ⟨h1, h2, h3, h4, h5, h6, h7⟩ :=
    run_state s v l0 r hsel hloc hclean hL (r.coordinates.length - 1) (Nat.le_refl _)
  have hsplit : r.coordinates.length = (r.coordinates.length - 1) + 1 := by omega
  rw [hsplit, ticksN]
  have hguard : ((((r.coordinates.length - 1) + 1 : Nat)) : Int)
      > (r.coordinates.length : Int) - 1 := by
    omega
  simp only [tickRef, h1, fireTimer, h2, List.lookup, beq_self_eq_true]
  rw [if_pos hguard]
  simp [clearRefTimer, h1, h2, h3, h4, h5, h6, h7, setTimerProgress]

/-- Stopping twice is the same as stopping once, for every component
state. -/
theorem stop_idem (s : FleetState) :
    handleStopTracking (handleStopTracking s) = handleStopTracking s := by
  obtain ⟨a1, a2, a3, trk, a5, a6, ref, a8, a9, a10, a11⟩ := s
  cases ref <;> rfl

/-- Stopping a session that is already inactive with no scheduled
interval changes nothing. -/
theorem stop_noop (s : FleetState) (h1 : s.isTracking = false)
    (h2 : s.trackingRef = none) : handleStopTracking s = s := by
  obtain ⟨a1, a2, a3, trk, a5, a6, ref, a8, a9, a10, a11⟩ := s
  simp only at h1 h2
  subst h1
  subst h2
  rfl

/-- Rebuilding a location from its own fields gives it back. -/
theorem loc_mk_eta (c : Loc) : ({ lat := c.lat, lng := c.lng } : Loc) = c :=
  rfl

/-! ### Claim theorems -/

/-- C1, amended.  For a session started over a route whose path has L
coordinates (L at least 2), L-1 scheduled ticks bring the published
progress to L-1 with completion fraction exactly 1 and the path-end
coordinate already emitted; but tracking is still flagged active and the
interval is still scheduled at that point.  The transition to inactive,
the clearing of the interval and the nulling of the ref happen only on
the next (L-th) firing, which emits nothing and attempts no location
write; after it, no further tick changes anything.  The claim as frozen
says the session is Completed after L-1 ticks with no tick scheduled
past completion; the code instead schedules exactly one firing past
completion and performs the completion transition there. -/
theorem C1_completion_needs_extra_tick (s : FleetState) (v : Nat) (l0 : Loc) (r : WireRoute)
    (hsel : s.selectedVehicleId = some v)
    (hloc : List.lookup v s.vehicleLocations = some l0)
    (hclean : s.liveTimers = [])
    (hL : 2 ≤ r.coordinates.length) :
    completionFraction (ticksN (handleStartTracking s r) (r.coordinates.length - 1)) = 1 ∧
    (ticksN (handleStartTracking s r) (r.coordinates.length - 1)).routeProgress
      = r.coordinates.length - 1 ∧
    (ticksN (handleStartTracking s r) (r.coordinates.length - 1)).persistCalls
      = s.persistCalls ++ emittedCalls v r (r.coordinates.length - 1) ∧
    (ticksN (handleStartTracking s r) (r.coordinates.length - 1)).isTracking = true ∧
    (ticksN (handleStartTracking s r) (r.coordinates.length - 1)).trackingRef
      = some s.nextTimerId ∧
    (ticksN (handleStartTracking s r) r.coordinates.length).isTracking = false ∧
    (ticksN (handleStartTracking s r) r.coordinates.length).trackingRef = none ∧
    (ticksN (handleStartTracking s r) r.coordinates.length).liveTimers = [] ∧
    (ticksN (handleStartTracking s r) r.coordinates.length).persistCalls
      = (ticksN (handleStartTracking s r) (r.coordinates.length - 1)).persistCalls ∧
    (∀ n, ticksN (handleStartTracking s r) (r.coordinates.length + n)
      = ticksN (handleStartTracking s r) r.coordinates.length) := by
  obtain ⟨h1, h2, h3, h4, h5, h6, h7⟩ :=
    run_state s v l0 r hsel hloc hclean hL (r.coordinates.length - 1) (Nat.le_refl _)
  obtain ⟨d1, d2, d3, d4, d5, d6, d7⟩ := run_done s v l0 r hsel hloc hclean hL
  have hfrac :
      completionFraction (ticksN (handleStartTracking s r) (r.coordinates.length - 1)) = 1 := by
    simp only [completionFraction, h5, h4]
    have h1L : (1 : Nat) ≤ r.coordinates.length := by omega
    rw [Nat.cast_sub h1L, Nat.cast_one]
    apply div_self
    have h2L : (2 : Rat) ≤ (r.coordinates.length : Rat) := by exact_mod_cast hL
    linarith
  refine ⟨hfrac, h4, h6, h3, h1, d3, d1, d2, ?_, ?_⟩
  · rw [d6, h6]
  · intro n
    rw [ticksN_add]
    exact ticksN_fixed _ d1 n

/-- C1, the claim as frozen is false on the code: on a concrete
3-coordinate route, after exactly L-1 = 2 ticks the completion fraction
is 1 yet the session is still flagged as tracking and its interval is
still scheduled, so a tick is scheduled past completion and the state
is not Completed. -/
theorem C1_counterexample :
    completionFraction (ticksN (handleStartTracking (mkReady 1 locEx) r3ex) 2) = 1 ∧
    (ticksN (handleStartTracking (mkReady 1 locEx) r3ex) 2).isTracking = true ∧
    (ticksN (handleStartTracking (mkReady 1 locEx) r3ex) 2).trackingRef = some 0 := by
  refine ⟨?_, rfl, rfl⟩
  norm_num [completionFraction, ticksN, tickRef, fireTimer, handleStartTracking, mkReady,
    locEx, r3ex, clearRefTimer, setTimerProgress, trackerEmitLoc, List.lookup]

/-- C1, witness: the amended theorem applied to a fresh component with
one vehicle and the concrete 3-coordinate route. -/
theorem C1_witness :
    completionFraction (ticksN (handleStartTracking (mkReady 1 locEx) r3ex) 2) = 1 ∧
    (ticksN (handleStartTracking (mkReady 1 locEx) r3ex) 2).isTracking = true ∧
    (ticksN (handleStartTracking (mkReady 1 locEx) r3ex) 3).isTracking = false ∧
    (ticksN (handleStartTracking (mkReady 1 locEx) r3ex) 3).trackingRef = none ∧
    (ticksN (handleStartTracking (mkReady 1 locEx) r3ex) 3).persistCalls
      = (ticksN (handleStartTracking (mkReady 1 locEx) r3ex) 2).persistCalls ∧
    ticksN (handleStartTracking (mkReady 1 locEx) r3ex) (3 + 1)
      = ticksN (handleStartTracking (mkReady 1 locEx) r3ex) 3 := by
  have h := C1_completion_needs_extra_tick (mkReady 1 locEx) 1 locEx r3ex rfl rfl rfl
    (by decide)
  exact ⟨h.1, h.2.2.2.1, h.2.2.2.2.2.1, h.2.2.2.2.2.2.1, h.2.2.2.2.2.2.2.2.1,
    h.2.2.2.2.2.2.2.2.2 1⟩

/-- C2, amended.  Every firing of a session's interval before the
published progress has reached the end of the path advances the
progress by exactly 1 and emits the wire coordinate at the new index as
a lat/lng object - lat from component 1, lng from component 0 of the
pair - recentering the map, storing the vehicle location and attempting
one backend location write, with the completion fraction becoming the
new index over path length minus 1.  The claim as frozen says this of
every tick of an Active session; the code keeps the session flagged
active for one further firing after the end of the path is reached, and
that firing advances nothing and emits nothing (see the
counterexample). -/
theorem C2_emitting_tick (s : FleetState) (id v : Nat) (r : WireRoute) (k : Nat) (ok : Bool)
    (hlk : List.lookup id s.liveTimers = some ⟨v, r, k⟩)
    (hrp : s.routeProgress = k)
    (hact : s.activeRoute = some r)
    (hk : (k : Int) + 1 ≤ (r.coordinates.length : Int) - 1) :
    (fireTimer id ok s).routeProgress = s.routeProgress + 1 ∧
    (fireTimer id ok s).persistCalls = s.persistCalls ++ [(v, emitLoc r (k + 1))] ∧
    (fireTimer id ok s).vehicleLocations = (v, emitLoc r (k + 1)) :: s.vehicleLocations ∧
    (fireTimer id ok s).center = emitLoc r (k + 1) ∧
    (fireTimer id ok s).isTracking = s.isTracking ∧
    completionFraction (fireTimer id ok s)
      = ((k : Rat) + 1) / ((r.coordinates.length : Rat) - 1) := by
  have hguard : ¬ (((k + 1 : Nat) : Int) > (r.coordinates.length : Int) - 1) := by omega
  unfold fireTimer
  rw [hlk]
  dsimp only []
  rw [if_neg hguard]
  cases ok <;>
    simp [persistFailureHandler, emitLoc, hrp, hact, completionFraction]

/-- C2, the claim as frozen is false on the code: on a 2-coordinate
route, after 1 tick the session is still flagged active, yet the next
scheduled firing advances the position by nothing and emits nothing -
so not every tick of an Active session advances the index by 1 and
emits a coordinate. -/
theorem C2_counterexample :
    (ticksN (handleStartTracking (mkReady 1 locEx) r2ex) 1).isTracking = true ∧
    (ticksN (handleStartTracking (mkReady 1 locEx) r2ex) 1).trackingRef = some 0 ∧
    (tickRef (ticksN (handleStartTracking (mkReady 1 locEx) r2ex) 1)).routeProgress
      = (ticksN (handleStartTracking (mkReady 1 locEx) r2ex) 1).routeProgress ∧
    (tickRef (ticksN (handleStartTracking (mkReady 1 locEx) r2ex) 1)).persistCalls
      = (ticksN (handleStartTracking (mkReady 1 locEx) r2ex) 1).persistCalls :=
  ⟨rfl, rfl, rfl, rfl⟩

/-- C2, witness: the amended theorem applied to the first tick of a
fresh session over the concrete 3-coordinate route. -/
theorem C2_witness :
    (fireTimer 0 true (handleStartTracking (mkReady 1 locEx) r3ex)).routeProgress
      = (handleStartTracking (mkReady 1 locEx) r3ex).routeProgress + 1 ∧
    (fireTimer 0 true (handleStartTracking (mkReady 1 locEx) r3ex)).persistCalls
      = (handleStartTracking (mkReady 1 locEx) r3ex).persistCalls
        ++ [(1, emitLoc r3ex (0 + 1))] ∧
    (fireTimer 0 true (handleStartTracking (mkReady 1 locEx) r3ex)).vehicleLocations
      = (1, emitLoc r3ex (0 + 1))
        :: (handleStartTracking (mkReady 1 locEx) r3ex).vehicleLocations ∧
    (fireTimer 0 true (handleStartTracking (mkReady 1 locEx) r3ex)).center
      = emitLoc r3ex (0 + 1) ∧
    (fireTimer 0 true (handleStartTracking (mkReady 1 locEx) r3ex)).isTracking
      = (handleStartTracking (mkReady 1 locEx) r3ex).isTracking ∧
    completionFraction (fireTimer 0 true (handleStartTracking (mkReady 1 locEx) r3ex))
      = ((0 : Rat) + 1) / ((r3ex.coordinates.length : Rat) - 1) :=
  C2_emitting_tick (handleStartTracking (mkReady 1 locEx) r3ex) 0 1 r3ex 0 true
    rfl rfl rfl (by decide)

/-- C3, amended.  handleStartTracking starts the new session at
position 0 with status active and stores the fresh interval in the ref,
but it cancels nothing: every previously live timer - including an
Active session's - stays scheduled, so two intervals can be live for
the same vehicle at once.  The claim as frozen says the old Active
session is first transitioned to Stopped with its timer cancelled;
no such supersede logic exists in the handler (the old session's timer
is cleared only by handleStopTracking, handleVehicleSelect or component
unmount). -/
theorem C3_start_keeps_old_timers (s : FleetState) (r : WireRoute) (v : Nat) (l : Loc)
    (hsel : s.selectedVehicleId = some v)
    (hloc : List.lookup v s.vehicleLocations = some l) :
    (handleStartTracking s r).routeProgress = 0 ∧
    (handleStartTracking s r).isTracking = true ∧
    (handleStartTracking s r).activeRoute = some r ∧
    (handleStartTracking s r).trackingRef = some s.nextTimerId ∧
    (handleStartTracking s r).liveTimers
      = s.liveTimers ++ [(s.nextTimerId, ⟨v, r, 0⟩)] := by
  simp [handleStartTracking, hsel, hloc]

/-- C3, the claim as frozen is false on the code: starting a second
session while the first is active leaves the first session's interval
live (both timers scheduled), instead of stopping it first. -/
theorem C3_counterexample :
    (handleStartTracking (mkReady 1 locEx) r3ex).isTracking = true ∧
    (handleStartTracking (handleStartTracking (mkReady 1 locEx) r3ex) r2ex).liveTimers
      = [(0, ⟨1, r3ex, 0⟩), (1, ⟨1, r2ex, 0⟩)] ∧
    List.lookup 0
      (handleStartTracking (handleStartTracking (mkReady 1 locEx) r3ex) r2ex).liveTimers
      = some ⟨1, r3ex, 0⟩ :=
  ⟨rfl, rfl, rfl⟩

/-- C3, witness: the amended theorem applied to a second start while a
first session is live. -/
theorem C3_witness :
    (handleStartTracking (handleStartTracking (mkReady 1 locEx) r3ex) r2ex).routeProgress
      = 0 ∧
    (handleStartTracking (handleStartTracking (mkReady 1 locEx) r3ex) r2ex).isTracking
      = true ∧
    (handleStartTracking (handleStartTracking (mkReady 1 locEx) r3ex) r2ex).activeRoute
      = some r2ex ∧
    (handleStartTracking (handleStartTracking (mkReady 1 locEx) r3ex) r2ex).trackingRef
      = some (handleStartTracking (mkReady 1 locEx) r3ex).nextTimerId ∧
    (handleStartTracking (handleStartTracking (mkReady 1 locEx) r3ex) r2ex).liveTimers
      = (handleStartTracking (mkReady 1 locEx) r3ex).liveTimers
        ++ [((handleStartTracking (mkReady 1 locEx) r3ex).nextTimerId, ⟨1, r2ex, 0⟩)] :=
  C3_start_keeps_old_timers (handleStartTracking (mkReady 1 locEx) r3ex) r2ex 1 locEx
    rfl rfl

/-- C4.  For every valid input - both coordinates in range, start
distinct from end within the epsilon, any of the four fuel types - the
modelled calculateRoutes succeeds with exactly 3 RoutePlans whose
route_type values are fastest, economy, scenic in order, with no
duplicates.  (The route engine is not in the source tree and is
modelled from the spec; the toll dataset collaborator is an arbitrary
parameter.) -/
theorem C4_three_distinct_routes (tl : List Loc → List TollCharge) (a b : Loc)
    (f : FuelType) (hva : validLoc a = true) (hvb : validLoc b = true)
    (hne : nearIdentical a b = false) :
    ∃ ps, calculateRoutes tl a b f = Except.ok ps ∧ ps.length = 3 ∧
      ps.map RoutePlan.route_type
        = [RouteType.fastest, RouteType.economy, RouteType.scenic] ∧
      (ps.map RoutePlan.route_type).Nodup := by
  have hcond : (validLoc a && validLoc b && !(nearIdentical a b)) = true := by
    rw [hva, hvb, hne]
    rfl
  refine ⟨[mkRoutePlan tl a b f .fastest, mkRoutePlan tl a b f .economy,
           mkRoutePlan tl a b f .scenic], ?_, rfl, rfl, ?_⟩
  · simp [calculateRoutes, hcond]
  · show ([RouteType.fastest, RouteType.economy, RouteType.scenic]).Nodup
    decide

/-- C4, witness: the theorem applied to concrete in-range coordinates,
an empty toll dataset and the petrol profile. -/
theorem C4_witness :
    ∃ ps, calculateRoutes (fun _ => []) { lat := 28, lng := 77 } { lat := 29, lng := 78 }
        FuelType.petrol = Except.ok ps ∧ ps.length = 3 ∧
      ps.map RoutePlan.route_type
        = [RouteType.fastest, RouteType.economy, RouteType.scenic] ∧
      (ps.map RoutePlan.route_type).Nodup :=
  C4_three_distinct_routes (fun _ => []) { lat := 28, lng := 77 } { lat := 29, lng := 78 }
    FuelType.petrol (by decide) (by decide) (by norm_num [nearIdentical, closeEps])

/-- C5.  Under the single-session invariant - every live timer is the
one held by the ref, which is how the component behaves when sessions
are started from a quiescent state - stopping is final and idempotent:
handleStopTracking leaves the recorded location writes untouched and
clears every live timer, after it any interleaving of timer firings
changes nothing (in particular zero further location-persistence calls
occur), stopping again is the same as stopping once, and stopping an
already-inactive session with no scheduled interval changes nothing at
all. -/
theorem C5_stop_final_idempotent (s : FleetState)
    (hone : ∀ p ∈ s.liveTimers, s.trackingRef = some p.1) :
    (handleStopTracking s).persistCalls = s.persistCalls ∧
    (handleStopTracking s).isTracking = false ∧
    (handleStopTracking s).liveTimers = [] ∧
    (∀ l, fireSeq (handleStopTracking s) l = handleStopTracking s) ∧
    handleStopTracking (handleStopTracking s) = handleStopTracking s ∧
    (s.isTracking = false → s.trackingRef = none → handleStopTracking s = s) := by
  have hempty : (handleStopTracking s).liveTimers = [] := by
    unfold handleStopTracking clearRefTimer
    cases htr : s.trackingRef with
    | none =>
        cases hlt : s.liveTimers with
        | nil => simp [hlt]
        | cons p t =>
            have := hone p (by rw [hlt]; exact List.mem_cons_self p t)
            rw [htr] at this
            exact absurd this (by simp)
    | some id0 =>
        dsimp only []
        rw [List.filter_eq_nil_iff]
        intro p hp
        have := hone p hp
        rw [htr] at this
        have hid : p.1 = id0 := (Option.some_inj.mp this).symm
        simp [hid]
  have hpc : (handleStopTracking s).persistCalls = s.persistCalls := by
    unfold handleStopTracking clearRefTimer
    cases s.trackingRef <;> rfl
  exact ⟨hpc, rfl, hempty, fireSeq_of_no_timers _ hempty, stop_idem s, stop_noop s⟩

/-- C5, witness: the theorem applied to a fresh single session; firing
the (cleared) interval any number of times after stop adds no
location-persistence call, and stop is idempotent there. -/
theorem C5_witness :
    fireSeq (handleStopTracking (handleStartTracking (mkReady 1 locEx) r3ex))
        [(0, true), (0, false)]
      = handleStopTracking (handleStartTracking (mkReady 1 locEx) r3ex) ∧
    handleStopTracking (handleStopTracking (handleStartTracking (mkReady 1 locEx) r3ex))
      = handleStopTracking (handleStartTracking (mkReady 1 locEx) r3ex) ∧
    (handleStopTracking (handleStartTracking (mkReady 1 locEx) r3ex)).persistCalls
      = (handleStartTracking (mkReady 1 locEx) r3ex).persistCalls := by
  have h := C5_stop_final_idempotent (handleStartTracking (mkReady 1 locEx) r3ex)
    (by decide)
  exact ⟨h.2.2.2.1 [(0, true), (0, false)], h.2.2.2.2.1, h.1⟩

/-- C6.  Within a tracking session started from a quiescent component,
the published position index never decreases from one scheduled tick to
the next and never exceeds the path length minus 1, whatever the number
of ticks. -/
theorem C6_progress_monotone_bounded (s : FleetState) (v : Nat) (l0 : Loc) (r : WireRoute)
    (hsel : s.selectedVehicleId = some v)
    (hloc : List.lookup v s.vehicleLocations = some l0)
    (hclean : s.liveTimers = [])
    (hL : 2 ≤ r.coordinates.length) :
    ∀ n, (ticksN (handleStartTracking s r) n).routeProgress ≤ r.coordinates.length - 1 ∧
      (ticksN (handleStartTracking s r) n).routeProgress
        ≤ (ticksN (handleStartTracking s r) (n + 1)).routeProgress := by
  have hstable : ∀ m, r.coordinates.length ≤ m →
      ticksN (handleStartTracking s r) m
        = ticksN (handleStartTracking s r) r.coordinates.length := by
    obtain ⟨d1, -, -, -, -, -, -⟩ := run_done s v l0 r hsel hloc hclean hL
    intro m hm
    have hsplit : m = r.coordinates.length + (m - r.coordinates.length) := by omega
    rw [hsplit, ticksN_add]
    exact ticksN_fixed _ d1 _
  intro n
  by_cases hn : n ≤ r.coordinates.length - 1
  · obtain ⟨-, -, -, h4, -, -, -⟩ := run_state s v l0 r hsel hloc hclean hL n hn
    by_cases hn1 : n + 1 ≤ r.coordinates.length - 1
    · obtain ⟨-, -, -, h4b, -, -, -⟩ := run_state s v l0 r hsel hloc hclean hL (n + 1) hn1
      constructor
      · omega
      · rw [h4, h4b]
        omega
    · have hn2 : n + 1 = r.coordinates.length := by omega
      obtain ⟨-, -, -, d4, -, -, -⟩ := run_done s v l0 r hsel hloc hclean hL
      constructor
      · omega
      · rw [h4, hn2, d4]
        omega
  · obtain ⟨-, -, -, d4, -, -, -⟩ := run_done s v l0 r hsel hloc hclean hL
    rw [hstable n (by omega), hstable (n + 1) (by omega), d4]
    omega

/-- C6, witness: the theorem applied to a concrete 3-coordinate
session, at the tick where the session reaches the end of the path. -/
theorem C6_witness :
    (ticksN (handleStartTracking (mkReady 1 locEx) r3ex) 2).routeProgress
      ≤ r3ex.coordinates.length - 1 ∧
    (ticksN (handleStartTracking (mkReady 1 locEx) r3ex) 2).routeProgress
      ≤ (ticksN (handleStartTracking (mkReady 1 locEx) r3ex) (2 + 1)).routeProgress :=
  C6_progress_monotone_bounded (mkReady 1 locEx) 1 locEx r3ex rfl rfl rfl (by decide) 2

/-- C7, amended.  Along a tracking session's trace, the displayed ETA
at published index k is Math.round of duration times (1 minus k divided
by the full path length L) - the divisor is the path length, not path
length minus 1 as the completion fraction uses, and the value is
rounded; in particular at full completion the ETA shows
round(duration / L) rather than 0.  The claim as frozen states the
spec's formula duration times (1 - k/(L-1)), which the code does not
compute (see the counterexample). -/
theorem C7_eta_divides_by_length (s : FleetState) (v : Nat) (l0 : Loc) (r : WireRoute)
    (hsel : s.selectedVehicleId = some v)
    (hloc : List.lookup v s.vehicleLocations = some l0)
    (hclean : s.liveTimers = [])
    (hL : 2 ≤ r.coordinates.length)
    (k : Nat) (hk : k ≤ r.coordinates.length - 1) :
    displayedEta (ticksN (handleStartTracking s r) k)
      = some (jsRound (r.duration * (1 - (k : Rat) / (r.coordinates.length : Rat)))) := by
  obtain ⟨-, -, -, h4, h5, -, -⟩ := run_state s v l0 r hsel hloc hclean hL k hk
  simp [displayedEta, h4, h5]

/-- C7, the claim as frozen is false on the code: on the concrete
3-coordinate route with duration 30, at published index 2 (completion
fraction 1) the displayed ETA is 10, while the spec formula
duration * (1 - 2/(3-1)) gives 0. -/
theorem C7_counterexample :
    displayedEta (ticksN (handleStartTracking (mkReady 1 locEx) r3ex) 2) = some 10 ∧
    specEta r3ex (ticksN (handleStartTracking (mkReady 1 locEx) r3ex) 2).routeProgress
      = 0 ∧
    displayedEta (ticksN (handleStartTracking (mkReady 1 locEx) r3ex) 2)
      ≠ some (jsRound (specEta r3ex
          (ticksN (handleStartTracking (mkReady 1 locEx) r3ex) 2).routeProgress)) := by
  refine ⟨?_, ?_, ?_⟩ <;>
    norm_num [displayedEta, specEta, jsRound, ticksN, tickRef, fireTimer,
      handleStartTracking, mkReady, locEx, r3ex, clearRefTimer, setTimerProgress,
      trackerEmitLoc, List.lookup]

/-- C7, witness: the amended theorem applied after one tick of the
concrete 3-coordinate session. -/
theorem C7_witness :
    displayedEta (ticksN (handleStartTracking (mkReady 1 locEx) r3ex) 1)
      = some (jsRound (r3ex.duration * (1 - (1 : Rat) / (r3ex.coordinates.length : Rat)))) :=
  C7_eta_divides_by_length (mkReady 1 locEx) 1 locEx r3ex rfl rfl rfl (by decide) 1
    (by decide)

/-- C8, amended.  A failure of the best-effort location write is
swallowed by an empty rejection handler: the resulting component state
is identical whatever the write's outcome - session state unaffected,
further ticking unaffected, nothing surfaced to any caller (the tick is
a total function into states, with no error channel) - and no log entry
is produced.  The claim as frozen says the failure is logged; the catch
handler of the write is empty and logs nothing (see the
counterexample). -/
theorem C8_persist_failure_inert (s : FleetState) (id : Nat) (o1 o2 : Bool) :
    fireTimer id o1 s = fireTimer id o2 s ∧
    (fireTimer id o1 s).loggedErrors = s.loggedErrors :=
  ⟨fireTimer_ok_irrelevant id o1 o2 s, fireTimer_loggedErrors id o1 s⟩

/-- C8, the claim as frozen is false on the code in its logging part:
on a concrete tick whose location write fails, a write was attempted
yet the error log stays empty (count 0), the state equal to the one of
a successful write - the failure is silently swallowed, not logged. -/
theorem C8_counterexample :
    (fireTimer 0 false (handleStartTracking (mkReady 1 locEx) r3ex)).persistCalls.length
      = 1 ∧
    (fireTimer 0 false (handleStartTracking (mkReady 1 locEx) r3ex)).loggedErrors = 0 ∧
    fireTimer 0 false (handleStartTracking (mkReady 1 locEx) r3ex)
      = fireTimer 0 true (handleStartTracking (mkReady 1 locEx) r3ex) :=
  ⟨rfl, rfl, rfl⟩

/-- C9.  In the wire representation of a RoutePlan each coordinate pair
is ordered (longitude, latitude), and both source-tree consumers
preserve that order: the tracking simulator turns pair i into the
position object with lat from component 1 and lng from component 0
(part_002 line 143), recovering the original coordinates exactly, and
the map renderers swap each pair to (lat, lng) before display (part_002
line 297, part_001 lines 497 and 916). -/
theorem C9_coordinate_order (p : RoutePlan) :
    (serializeRoutePlan p).coordinates = p.path.map (fun c => (c.lng, c.lat)) ∧
    (serializeRoutePlan p).coordinates.map trackerEmitLoc = p.path ∧
    (serializeRoutePlan p).coordinates.map rendererPosition
      = p.path.map (fun c => (c.lat, c.lng)) := by
  refine ⟨rfl, ?_, ?_⟩
  · simp only [serializeRoutePlan, List.map_map]
    have : trackerEmitLoc ∘ serializeCoordPair = id := by
      funext c
      exact loc_mk_eta c
    rw [this, List.map_id]
  · simp only [serializeRoutePlan, List.map_map]
    rfl

/-- C10.  Selecting a vehicle cancels any in-progress tracking session
as a side effect, whatever the previous state: the ref'd interval is
cleared, tracking becomes inactive, the active route is cleared and the
route progress resets to 0. -/
theorem C10_select_cancels_session (s : FleetState) (v : Nat) :
    (handleVehicleSelect s v).selectedVehicleId = some v ∧
    (handleVehicleSelect s v).isTracking = false ∧
    (handleVehicleSelect s v).activeRoute = none ∧
    (handleVehicleSelect s v).routeProgress = 0 ∧
    (handleVehicleSelect s v).trackingRef = none ∧
    (∀ id, s.trackingRef = some id →
      List.lookup id (handleVehicleSelect s v).liveTimers = none) := by
  unfold handleVehicleSelect clearRefTimer
  cases htr : s.trackingRef with
  | none =>
      cases hlv : List.lookup v s.vehicleLocations with
      | none => simp [hlv]
      | some l => simp [hlv]
  | some id0 =>
      cases hlv : List.lookup v s.vehicleLocations with
      | none =>
          simp only [hlv]
          refine ⟨trivial, trivial, trivial, trivial, trivial, ?_⟩
          intro id hid
          obtain rfl : id0 = id := Option.some_inj.mp hid
          exact lookup_filter_bne id0 s.liveTimers
      | some l =>
          simp only [hlv]
          refine ⟨trivial, trivial, trivial, trivial, trivial, ?_⟩
          intro id hid
          obtain rfl : id0 = id := Option.some_inj.mp hid
          exact lookup_filter_bne id0 s.liveTimers

/-- C10, witness: the theorem applied to a state with a live session;
the session's interval is gone after the selection. -/
theorem C10_witness :
    (handleVehicleSelect (handleStartTracking (mkReady 1 locEx) r3ex) 1).isTracking
      = false ∧
    (handleVehicleSelect (handleStartTracking (mkReady 1 locEx) r3ex) 1).activeRoute
      = none ∧
    (handleVehicleSelect (handleStartTracking (mkReady 1 locEx) r3ex) 1).routeProgress
      = 0 ∧
    List.lookup 0
      (handleVehicleSelect (handleStartTracking (mkReady 1 locEx) r3ex) 1).liveTimers
      = none := by
  have h := C10_select_cancels_session (handleStartTracking (mkReady 1 locEx) r3ex) 1
  exact ⟨h.2.1, h.2.2.1, h.2.2.2.1, h.2.2.2.2.2 0 rfl⟩

end FleetWise
